import Mathlib

/-!
Shallow embedding of the Speak the Words task controller
(`src/app/components/speak-the-words.js`, with the older copy of the same
class in `src/unnamed/part_000` embedded where it differs).  The controller
owns the view-state machine (`task` / `results` / `solutions`), evaluates a
recognized utterance against the author's accepted answers, publishes xAPI
"answered" records, coordinates the media recorder, and restores a prior
persisted snapshot.
-/

namespace STW

/-- Model of the external `he` library `decode` used at configuration load
(line 85 of the source maps every accepted answer through it): the common
named HTML character references are replaced, all other characters pass
through unchanged. -/
def decodeChars : List Char → List Char
  | [] => []
  | '&' :: 'a' :: 'm' :: 'p' :: ';' :: rest => '&' :: decodeChars rest
  | '&' :: 'l' :: 't' :: ';' :: rest => '<' :: decodeChars rest
  | '&' :: 'g' :: 't' :: ';' :: rest => '>' :: decodeChars rest
  | '&' :: 'q' :: 'u' :: 'o' :: 't' :: ';' :: rest => Char.ofNat 34 :: decodeChars rest
  | '&' :: 'n' :: 'b' :: 's' :: 'p' :: ';' :: rest => Char.ofNat 160 :: decodeChars rest
  | c :: rest => c :: decodeChars rest

/-- HTML-entity decoding of a string (model of `decode` from the `he`
package). -/
def decode (s : String) : String := ⟨decodeChars s.data⟩

/-- JavaScript `Array.prototype.indexOf` on string arrays: index of the first
exact (case-sensitive) occurrence, `-1` when absent. -/
def jsIndexOf : List String → String → Int
  | [], _ => -1
  | a :: rest, x =>
    if a = x then 0
    else
      let r := jsIndexOf rest x
      if r = -1 then -1 else r + 1

/-- Answer evaluation (line 181: `acceptedAnswers.indexOf(response) !== -1`). -/
def evaluateAnswer (accepted : List String) (response : String) : Bool :=
  jsIndexOf accepted response != -1

/-- Persisted state shape produced by `getCurrentState` and consumed through
`extras.previousState`: `{ viewState, lastInterpretations }`, each field
possibly absent. -/
structure PrevState where
  viewState : Option String := none
  lastInterpretations : Option (List String) := none
deriving DecidableEq

/-- Line 94 of the constructor reads `this.previousState.vieState`, a
misspelled key that the persisted state shape `{ viewState,
lastInterpretations }` never defines, so the read is always `undefined`. -/
def PrevState.vieState (_ : PrevState) : Option String := none

/-- Author parameters after `Util.extend` merged them over the defaults of
the constructor (only the fields the controller logic reads are kept; the
translation strings are pure rendering data). -/
structure Params where
  question : String := ""
  acceptedAnswers : List String := []
  incorrectAnswerText : String := "Incorrect answer"
  correctAnswerText : String := "Correct answer"
deriving DecidableEq

/-- Mutable instance fields of the controller.  `mediaRecorder` holds the
recorder state string (`inactive` / `recording` / `paused`) when a recorder
was ever created, `none` when capture was never set up.  `xapiCount` counts
the Interaction Outcome Records published through `triggerXAPIAnswered`;
`sessionStoreCount` counts the `kllStoreSessionState` notifications fired by
`setViewState`. -/
structure STWState where
  acceptedAnswers : List String
  correctAnswerText : String
  incorrectAnswerText : String
  previousState : PrevState
  mediaRecorder : Option String
  hasAnswered : Bool
  score : Nat
  viewState : Option String
  lastInterpretations : Option (List String)
  tryAgainVisible : Bool
  showSolutionVisible : Bool
  feedback : Option (String × Nat × Nat)
  mediaMIMEType : Option String
  captureRequested : Bool
  xapiCount : Nat
  sessionStoreCount : Nat
deriving DecidableEq

/-- The three legal view-state names (line 78). -/
def VIEW_STATES : List String := ["task", "results", "solutions"]

/-- Lines 475-484: an unknown name returns early; a legal one notifies the
session store and is assigned. -/
def setViewState (s : STWState) (v : String) : STWState :=
  if VIEW_STATES.contains v then
    { s with viewState := some v, sessionStoreCount := s.sessionStoreCount + 1 }
  else s

/-- Constructor (lines 53-123): merge defaults, decode every accepted answer
once, initialize the instance fields, and set the view state from the
misspelled `vieState` key with default `task`. -/
def construct (params : Params) (extras : Option PrevState) : STWState :=
  let prev := extras.getD {}
  let s : STWState := {
    acceptedAnswers := params.acceptedAnswers.map decode
    correctAnswerText := params.correctAnswerText
    incorrectAnswerText := params.incorrectAnswerText
    previousState := prev
    mediaRecorder := none
    hasAnswered := false
    score := 0
    viewState := none
    lastInterpretations := none
    tryAgainVisible := false
    showSolutionVisible := false
    feedback := none
    mediaMIMEType := none
    captureRequested := false
    xapiCount := 0
    sessionStoreCount := 0 }
  setViewState s (prev.vieState.getD "task")

/-- Lines 170-172: `if (this.mediaRecorder && this.mediaRecorder.state !==
'inactive') this.mediaRecorder.stop()`. -/
def stopRecorderOnAnswer (s : STWState) : STWState :=
  match s.mediaRecorder with
  | some st => if st = "inactive" then s else { s with mediaRecorder := some "inactive" }
  | none => s

/-- JavaScript truthiness test `!x` for an optional string: true for an
absent value and for the empty string. -/
def jsFalsyStr : Option String → Bool
  | none => true
  | some v => v == ""

/-- Line 199: `!this.previousState.viewState || this.previousState.viewState
=== 'task'` — the guard deciding whether the xAPI answered record is
published. -/
def xapiAnsweredGuard (prev : PrevState) : Bool :=
  jsFalsyStr prev.viewState || prev.viewState == some "task"

/-- Lines 169-205 of the current file: stop an active recorder, record the
interpretations, evaluate the first candidate, set score, buttons and
feedback, publish the xAPI record when the persisted previous view state was
`task` or absent, mark answered, and move to `results`. -/
def handleAnswered (s : STWState) (data : List String) : STWState :=
  let sr := stopRecorderOnAnswer s
  let correct := match data.head? with
    | some r => evaluateAnswer sr.acceptedAnswers r
    | none => false
  let s1 := { sr with lastInterpretations := some data }
  let s2 :=
    if correct then
      { s1 with score := 1, tryAgainVisible := false, showSolutionVisible := false }
    else
      { s1 with score := 0, tryAgainVisible := true, showSolutionVisible := true }
  let fb := (decode (if correct then s2.correctAnswerText else s2.incorrectAnswerText),
    s2.score, 1)
  let s3 := { s2 with feedback := some fb }
  let s4 :=
    if xapiAnsweredGuard s3.previousState then
      { s3 with xapiCount := s3.xapiCount + 1 }
    else s3
  setViewState { s4 with hasAnswered := true } "results"

/-- Lines 296-312: reset buttons, feedback, flags, persisted state and the
interpretation list, then return to the `task` view. -/
def resetTask (s : STWState) : STWState :=
  let s1 := { s with
    tryAgainVisible := false
    showSolutionVisible := false
    feedback := none
    hasAnswered := false
    score := 0
    previousState := {}
    lastInterpretations := some [] }
  setViewState s1 "task"

/-- Lines 317-326: hide the show-solution control and move to the
`solutions` view; the method itself carries no view-state guard. -/
def showSolutions (s : STWState) : STWState :=
  setViewState { s with showSolutionVisible := false } "solutions"

/-- Lines 274-291: when the persisted view state was `results` or
`solutions`, replay the answered event with the stored interpretations; when
it was `solutions`, additionally re-render the solutions view. -/
def recreateState (s : STWState) : STWState :=
  let data := s.previousState.lastInterpretations.getD []
  let s1 :=
    if s.previousState.viewState = some "results" ∨
        s.previousState.viewState = some "solutions" then
      handleAnswered s data
    else s
  if s.previousState.viewState = some "solutions" then showSolutions s1 else s1

/-- Platform capabilities probed by the controller: presence of the speech
engine (`window.annyang`), of the recorder API (`window.MediaRecorder`), of
its `isTypeSupported` query, and the two codec answers. -/
structure Platform where
  annyang : Bool
  hasMediaRecorder : Bool
  hasIsTypeSupported : Bool
  supportsWebm : Bool
  supportsMp4 : Bool
deriving DecidableEq

/-- Lines 436-456: no recorder API yields no type; a recorder API without
`isTypeSupported` yields `audio/mp4` (older Apple devices); otherwise
`audio/webm` when supported, else `audio/mp4` when supported, else none. -/
def getRecordingMIMEType (p : Platform) : Option String :=
  if ¬ p.hasMediaRecorder then none
  else if ¬ p.hasIsTypeSupported then some "audio/mp4"
  else if p.supportsWebm then some "audio/webm"
  else if p.supportsMp4 then some "audio/mp4"
  else none

/-- Lines 211-269: without the speech engine only the unsupported notice is
rendered; otherwise the MIME type is negotiated once, capture is requested
exactly when a type was negotiated (the recorder itself arrives later on the
asynchronous `getUserMedia` callback), and a persisted non-empty
interpretation list triggers the state replay. -/
def registerDomElements (p : Platform) (s : STWState) : STWState :=
  if ¬ p.annyang then s
  else
    let mt := getRecordingMIMEType p
    let s1 := { s with mediaMIMEType := mt, captureRequested := mt.isSome }
    match s1.previousState.lastInterpretations with
    | some l => if l.isEmpty then s1 else recreateState s1
    | none => s1

/-- Serializable snapshot returned by `getCurrentState` (lines 462-469). -/
structure CurrentState where
  viewState : Option String
  lastInterpretations : List String
deriving DecidableEq

/-- Lines 462-469: `{ viewState, lastInterpretations: this.lastInterpretations
|| [] }`. -/
def getCurrentState (s : STWState) : CurrentState :=
  { viewState := s.viewState
    lastInterpretations := s.lastInterpretations.getD [] }

/-- Error raised by the older copy of the class when `this.mediaRecorder` is
`null`. -/
def mediaRecorderNullError : String :=
  "TypeError: Cannot read properties of null (reading state)"

/-- Lines 158-188 of `src/unnamed/part_000`: the older `handleAnswered`
dereferences `this.mediaRecorder.state` without a null guard, so a session
whose capture was never set up throws before any evaluation happens; it also
publishes the xAPI record unconditionally and tracks no view state. -/
def handleAnsweredPart000 (s : STWState) (data : List String) :
    Except String STWState :=
  match s.mediaRecorder with
  | none => Except.error mediaRecorderNullError
  | some st =>
    let sr := if st = "inactive" then s else { s with mediaRecorder := some "inactive" }
    let correct := match data.head? with
      | some r => evaluateAnswer sr.acceptedAnswers r
      | none => false
    let s2 :=
      if correct then
        { sr with score := 1, tryAgainVisible := false, showSolutionVisible := false }
      else
        { sr with score := 0, tryAgainVisible := true, showSolutionVisible := true }
    let fb := (decode (if correct then s2.correctAnswerText else s2.incorrectAnswerText),
      s2.score, 1)
    let s3 := { s2 with feedback := some fb }
    Except.ok { s3 with xapiCount := s3.xapiCount + 1, hasAnswered := true }

/-- Whether the stored view state is one of the three legal names. -/
def legalView (s : STWState) : Bool :=
  match s.viewState with
  | some v => VIEW_STATES.contains v
  | none => false

/-- Concrete configuration used by the scenario claims: accepted answers
`[paris]` and the default texts. -/
def parisParams : Params := { acceptedAnswers := ["paris"] }

/-- Concrete fully-capable platform used by witnesses. -/
def chromePlatform : Platform :=
  { annyang := true
    hasMediaRecorder := true
    hasIsTypeSupported := true
    supportsWebm := true
    supportsMp4 := false }

/-- Persisted snapshot recording the `solutions` view together with the
interpretations `L` of the answered turn. -/
def solutionsSnapshot (L : List String) : PrevState :=
  { viewState := some "solutions", lastInterpretations := some L }

/-- Session resumed from the persisted snapshot `{ viewState: solutions,
lastInterpretations: L }`: construction followed by DOM registration, which
replays the stored interpretations. -/
def restoredState (p : Params) (plat : Platform) (L : List String) : STWState :=
  registerDomElements plat (construct p (some (solutionsSnapshot L)))

theorem jsIndexOf_nonneg_or_neg_one (xs : List String) (x : String) :
    jsIndexOf xs x = -1 ∨ 0 ≤ jsIndexOf xs x := by
  induction xs with
  | nil => left; rfl
  | cons a rest ih =>
    by_cases hax : a = x
    · right; simp [jsIndexOf, hax]
    · by_cases h1 : jsIndexOf rest x = -1
      · left; simp [jsIndexOf, hax, h1]
      · right
        have hge : 0 ≤ jsIndexOf rest x := ih.resolve_left h1
        simp [jsIndexOf, hax, h1]
        omega

theorem jsIndexOf_eq_neg_one_iff (xs : List String) (x : String) :
    jsIndexOf xs x = -1 ↔ x ∉ xs := by
  induction xs with
  | nil => simp [jsIndexOf]
  | cons a rest ih =>
    by_cases hax : a = x
    · subst hax
      simp [jsIndexOf]
    · by_cases h1 : jsIndexOf rest x = -1
      · have hnr : x ∉ rest := ih.mp h1
        have hne : x ≠ a := fun h => hax h.symm
        simp [jsIndexOf, hax, h1, List.mem_cons, hnr, hne]
      · have hge : 0 ≤ jsIndexOf rest x :=
          (jsIndexOf_nonneg_or_neg_one rest x).resolve_left h1
        have hmem : x ∈ rest := by
          by_contra hx
          exact h1 (ih.mpr hx)
        simp [jsIndexOf, hax, h1]
        constructor
        · intro hc
          omega
        · intro hnot
          exact absurd hmem hnot.2

theorem evaluateAnswer_iff_mem (accepted : List String) (r : String) :
    evaluateAnswer accepted r = true ↔ r ∈ accepted := by
  unfold evaluateAnswer
  rw [bne_iff_ne]
  constructor
  · intro h
    by_contra hr
    exact h ((jsIndexOf_eq_neg_one_iff accepted r).mpr hr)
  · intro h hc
    exact ((jsIndexOf_eq_neg_one_iff accepted r).mp hc) h

theorem mem_task : "task" ∈ VIEW_STATES := by decide

theorem mem_results : "results" ∈ VIEW_STATES := by decide

theorem mem_solutions : "solutions" ∈ VIEW_STATES := by decide

theorem setViewState_invalid (s : STWState) {v : String}
    (h : v ∉ VIEW_STATES) : setViewState s v = s := by
  simp [setViewState, h]

theorem setViewState_viewState_valid (s : STWState) {v : String}
    (h : v ∈ VIEW_STATES) : (setViewState s v).viewState = some v := by
  simp [setViewState, h]

theorem setViewState_previousState (s : STWState) (v : String) :
    (setViewState s v).previousState = s.previousState := by
  unfold setViewState
  split <;> rfl

theorem setViewState_acceptedAnswers (s : STWState) (v : String) :
    (setViewState s v).acceptedAnswers = s.acceptedAnswers := by
  unfold setViewState
  split <;> rfl

theorem setViewState_score (s : STWState) (v : String) :
    (setViewState s v).score = s.score := by
  unfold setViewState
  split <;> rfl

theorem setViewState_hasAnswered (s : STWState) (v : String) :
    (setViewState s v).hasAnswered = s.hasAnswered := by
  unfold setViewState
  split <;> rfl

theorem setViewState_xapiCount (s : STWState) (v : String) :
    (setViewState s v).xapiCount = s.xapiCount := by
  unfold setViewState
  split <;> rfl

theorem setViewState_lastInterpretations (s : STWState) (v : String) :
    (setViewState s v).lastInterpretations = s.lastInterpretations := by
  unfold setViewState
  split <;> rfl

theorem setViewState_tryAgainVisible (s : STWState) (v : String) :
    (setViewState s v).tryAgainVisible = s.tryAgainVisible := by
  unfold setViewState
  split <;> rfl

theorem setViewState_showSolutionVisible (s : STWState) (v : String) :
    (setViewState s v).showSolutionVisible = s.showSolutionVisible := by
  unfold setViewState
  split <;> rfl

theorem setViewState_feedback (s : STWState) (v : String) :
    (setViewState s v).feedback = s.feedback := by
  unfold setViewState
  split <;> rfl

theorem setViewState_mediaRecorder (s : STWState) (v : String) :
    (setViewState s v).mediaRecorder = s.mediaRecorder := by
  unfold setViewState
  split <;> rfl

theorem setViewState_mediaMIMEType (s : STWState) (v : String) :
    (setViewState s v).mediaMIMEType = s.mediaMIMEType := by
  unfold setViewState
  split <;> rfl

theorem setViewState_captureRequested (s : STWState) (v : String) :
    (setViewState s v).captureRequested = s.captureRequested := by
  unfold setViewState
  split <;> rfl

theorem construct_acceptedAnswers (p : Params) (e : Option PrevState) :
    (construct p e).acceptedAnswers = p.acceptedAnswers.map decode := by
  simp only [construct, setViewState_acceptedAnswers]

/-- C1: answer evaluation returns true exactly when the candidate response is
case-sensitively present among the stored accepted answers, which are the
author's configured strings HTML-entity-decoded once at configuration load. -/
theorem evaluation_iff_mem_decoded (params : Params) (extras : Option PrevState)
    (r : String) :
    evaluateAnswer (construct params extras).acceptedAnswers r = true ↔
      r ∈ params.acceptedAnswers.map decode := by
  rw [construct_acceptedAnswers]
  exact evaluateAnswer_iff_mem _ r

/-- C10: immediately after construction the view state is `task` for every
input, including when a prior snapshot carrying view state `results` or
`solutions` is supplied, because the constructor reads the misspelled key
`vieState`, which the persisted state shape never defines. -/
theorem construct_view_always_task (p : Params) (e : Option PrevState) :
    (construct p e).viewState = some "task" ∧
    (getCurrentState (construct p e)).viewState = some "task" := by
  have h : (construct p e).viewState = some "task" := by
    simp only [construct, PrevState.vieState, Option.getD]
    exact setViewState_viewState_valid _ mem_task
  exact ⟨h, by simpa [getCurrentState] using h⟩

/-- C3: reset always returns to view state `task`, clears the score to 0 and
the has-answered flag to false, empties the interpretation list, and makes
`getCurrentState` report the initial snapshot. -/
theorem reset_restores_initial (s : STWState) :
    (resetTask s).viewState = some "task" ∧ (resetTask s).score = 0 ∧
    (resetTask s).hasAnswered = false ∧
    getCurrentState (resetTask s) =
      { viewState := some "task", lastInterpretations := [] } := by
  refine ⟨?_, ?_, ?_, ?_⟩ <;>
    simp [resetTask, getCurrentState, setViewState, mem_task]

/-- C4 counterexample: invoking the show-solution command on a freshly
constructed session, whose view state is `task`, moves the view state to
`solutions` instead of leaving it unchanged. -/
theorem show_solution_from_task_changes_state :
    (construct parisParams none).viewState = some "task" ∧
    (showSolutions (construct parisParams none)).viewState = some "solutions" := by
  exact ⟨rfl, rfl⟩

/-- C4 amended: the show-solution transition carries no view-state guard:
from every session state, including `task`, it sets the view state to
`solutions` and hides the show-solution control; results-only reachability is
enforced solely by the control being hidden outside `results`. -/
theorem show_solutions_always_solutions (s : STWState) :
    (showSolutions s).viewState = some "solutions" ∧
    (showSolutions s).showSolutionVisible = false := by
  constructor
  · exact setViewState_viewState_valid _ mem_solutions
  · rw [showSolutions, setViewState_showSolutionVisible]

/-- C9: with accepted answers `[paris]`, the candidate list `[paris, pari]`
evaluates as correct with score 1 and both the retry and show-solution
controls hidden, while `[london]` evaluates as incorrect with score 0 and
both controls shown. -/
theorem paris_scenarios :
    (handleAnswered (construct parisParams none) ["paris", "pari"]).score = 1 ∧
    (handleAnswered (construct parisParams none) ["paris", "pari"]).tryAgainVisible
      = false ∧
    (handleAnswered (construct parisParams none) ["paris", "pari"]).showSolutionVisible
      = false ∧
    evaluateAnswer (construct parisParams none).acceptedAnswers "paris" = true ∧
    (handleAnswered (construct parisParams none) ["london"]).score = 0 ∧
    (handleAnswered (construct parisParams none) ["london"]).tryAgainVisible = true ∧
    (handleAnswered (construct parisParams none) ["london"]).showSolutionVisible
      = true ∧
    evaluateAnswer (construct parisParams none).acceptedAnswers "london" = false := by
  decide
theorem handleAnswered_previousState (s : STWState) (d : List String) :
    (handleAnswered s d).previousState = s.previousState := by
  cases hm : s.mediaRecorder <;>
    simp only [handleAnswered, stopRecorderOnAnswer, hm] <;>
    split_ifs <;> simp [setViewState_previousState]

theorem handleAnswered_viewState (s : STWState) (d : List String) :
    (handleAnswered s d).viewState = some "results" := by
  cases hm : s.mediaRecorder <;>
    simp only [handleAnswered, stopRecorderOnAnswer, hm] <;>
    split_ifs <;> simp [setViewState_viewState_valid _ mem_results]

theorem handleAnswered_hasAnswered (s : STWState) (d : List String) :
    (handleAnswered s d).hasAnswered = true := by
  cases hm : s.mediaRecorder <;>
    simp only [handleAnswered, stopRecorderOnAnswer, hm] <;>
    split_ifs <;> simp [setViewState_hasAnswered]

theorem handleAnswered_acceptedAnswers (s : STWState) (d : List String) :
    (handleAnswered s d).acceptedAnswers = s.acceptedAnswers := by
  cases hm : s.mediaRecorder <;>
    simp only [handleAnswered, stopRecorderOnAnswer, hm] <;>
    split_ifs <;> simp [setViewState_acceptedAnswers]

theorem handleAnswered_xapiCount (s : STWState) (d : List String) :
    (handleAnswered s d).xapiCount =
      (if xapiAnsweredGuard s.previousState then s.xapiCount + 1 else s.xapiCount) := by
  cases hm : s.mediaRecorder <;>
    simp only [handleAnswered, stopRecorderOnAnswer, hm] <;>
    split_ifs <;> simp_all [setViewState_xapiCount]

theorem handleAnswered_lastInterpretations (s : STWState) (d : List String) :
    (handleAnswered s d).lastInterpretations = some d := by
  cases hm : s.mediaRecorder <;>
    simp only [handleAnswered, stopRecorderOnAnswer, hm] <;>
    split_ifs <;> simp [setViewState_lastInterpretations]

theorem handleAnswered_score (s : STWState) (d : List String) :
    (handleAnswered s d).score =
      (match d.head? with
       | some r => if evaluateAnswer s.acceptedAnswers r then 1 else 0
       | none => 0) := by
  cases hd : d.head? <;> cases hm : s.mediaRecorder <;>
    simp only [handleAnswered, stopRecorderOnAnswer, hm, hd] <;>
    split_ifs <;> simp_all [setViewState_score]

theorem handleAnswered_feedback_isSome (s : STWState) (d : List String) :
    (handleAnswered s d).feedback.isSome = true := by
  cases hm : s.mediaRecorder <;>
    simp only [handleAnswered, stopRecorderOnAnswer, hm] <;>
    split_ifs <;> simp [setViewState_feedback]

theorem handleAnswered_tryAgainVisible (s : STWState) (d : List String) :
    (handleAnswered s d).tryAgainVisible =
      (match d.head? with
       | some r => !evaluateAnswer s.acceptedAnswers r
       | none => true) := by
  cases hd : d.head? <;> cases hm : s.mediaRecorder <;>
    simp only [handleAnswered, stopRecorderOnAnswer, hm, hd] <;>
    split_ifs <;> simp_all [setViewState_tryAgainVisible]

theorem handleAnswered_showSolutionVisible (s : STWState) (d : List String) :
    (handleAnswered s d).showSolutionVisible =
      (match d.head? with
       | some r => !evaluateAnswer s.acceptedAnswers r
       | none => true) := by
  cases hd : d.head? <;> cases hm : s.mediaRecorder <;>
    simp only [handleAnswered, stopRecorderOnAnswer, hm, hd] <;>
    split_ifs <;> simp_all [setViewState_showSolutionVisible]

theorem handleAnswered_mediaMIMEType (s : STWState) (d : List String) :
    (handleAnswered s d).mediaMIMEType = s.mediaMIMEType := by
  cases hm : s.mediaRecorder <;>
    simp only [handleAnswered, stopRecorderOnAnswer, hm] <;>
    split_ifs <;> simp [setViewState_mediaMIMEType]

theorem handleAnswered_captureRequested (s : STWState) (d : List String) :
    (handleAnswered s d).captureRequested = s.captureRequested := by
  cases hm : s.mediaRecorder <;>
    simp only [handleAnswered, stopRecorderOnAnswer, hm] <;>
    split_ifs <;> simp [setViewState_captureRequested]

theorem showSolutions_viewState (s : STWState) :
    (showSolutions s).viewState = some "solutions" :=
  setViewState_viewState_valid _ mem_solutions

theorem showSolutions_showSolutionVisible (s : STWState) :
    (showSolutions s).showSolutionVisible = false := by
  rw [showSolutions, setViewState_showSolutionVisible]

theorem showSolutions_xapiCount (s : STWState) :
    (showSolutions s).xapiCount = s.xapiCount := by
  rw [showSolutions, setViewState_xapiCount]

theorem showSolutions_score (s : STWState) :
    (showSolutions s).score = s.score := by
  rw [showSolutions, setViewState_score]

theorem showSolutions_hasAnswered (s : STWState) :
    (showSolutions s).hasAnswered = s.hasAnswered := by
  rw [showSolutions, setViewState_hasAnswered]

theorem showSolutions_lastInterpretations (s : STWState) :
    (showSolutions s).lastInterpretations = s.lastInterpretations := by
  rw [showSolutions, setViewState_lastInterpretations]

theorem showSolutions_mediaMIMEType (s : STWState) :
    (showSolutions s).mediaMIMEType = s.mediaMIMEType := by
  rw [showSolutions, setViewState_mediaMIMEType]

theorem showSolutions_captureRequested (s : STWState) :
    (showSolutions s).captureRequested = s.captureRequested := by
  rw [showSolutions, setViewState_captureRequested]

theorem construct_viewState_task (p : Params) (e : Option PrevState) :
    (construct p e).viewState = some "task" := by
  simp only [construct, PrevState.vieState, Option.getD]
  exact setViewState_viewState_valid _ mem_task

theorem construct_previousState (p : Params) (prev : PrevState) :
    (construct p (some prev)).previousState = prev := by
  simp only [construct, setViewState_previousState, Option.getD]

theorem construct_xapiCount (p : Params) (e : Option PrevState) :
    (construct p e).xapiCount = 0 := by
  simp only [construct, setViewState_xapiCount]

theorem construct_mediaRecorder (p : Params) (e : Option PrevState) :
    (construct p e).mediaRecorder = none := by
  simp only [construct, setViewState_mediaRecorder]

theorem recreateState_mediaMIMEType (s : STWState) :
    (recreateState s).mediaMIMEType = s.mediaMIMEType := by
  unfold recreateState
  split_ifs <;>
    simp [handleAnswered_mediaMIMEType, showSolutions_mediaMIMEType]

theorem recreateState_captureRequested (s : STWState) :
    (recreateState s).captureRequested = s.captureRequested := by
  unfold recreateState
  split_ifs <;>
    simp [handleAnswered_captureRequested, showSolutions_captureRequested]

theorem restore_unfold (p : Params) (plat : Platform) (L : List String)
    (hp : plat.annyang = true) (hL : L ≠ []) :
    restoredState p plat L =
      showSolutions (handleAnswered
        { construct p (some (solutionsSnapshot L)) with
          mediaMIMEType := getRecordingMIMEType plat,
          captureRequested := (getRecordingMIMEType plat).isSome } L) := by
  have hLe : L.isEmpty = false := by
    cases L with
    | nil => exact absurd rfl hL
    | cons a t => rfl
  unfold restoredState registerDomElements recreateState
  simp [hp, hLe, construct_previousState, solutionsSnapshot]

/-- C6: initialization from a snapshot `{ viewState: solutions,
lastInterpretations: L }` with `L` non-empty replays the evaluation (the
question is marked answered, the interpretations and score are re-derived),
ends with the solutions view, and publishes no Interaction Outcome Record
during the restore. -/
theorem restore_solutions_no_republish (p : Params) (plat : Platform) (L : List String)
    (hp : plat.annyang = true) (hL : L ≠ []) :
    (restoredState p plat L).viewState = some "solutions" ∧
    (restoredState p plat L).xapiCount = 0 ∧
    (restoredState p plat L).hasAnswered = true ∧
    (restoredState p plat L).lastInterpretations = some L ∧
    (restoredState p plat L).score =
      (match L.head? with
       | some r => if evaluateAnswer (p.acceptedAnswers.map decode) r then 1 else 0
       | none => 0) := by
  rw [restore_unfold p plat L hp hL]
  refine ⟨showSolutions_viewState _, ?_, ?_, ?_, ?_⟩
  · rw [showSolutions_xapiCount, handleAnswered_xapiCount]
    simp [construct_previousState, solutionsSnapshot, xapiAnsweredGuard,
      jsFalsyStr, construct_xapiCount]
  · rw [showSolutions_hasAnswered, handleAnswered_hasAnswered]
  · rw [showSolutions_lastInterpretations, handleAnswered_lastInterpretations]
  · rw [showSolutions_score, handleAnswered_score]
    simp [construct_acceptedAnswers]

theorem legalView_of_viewState {s : STWState} {v : String}
    (h : s.viewState = some v) (hv : v ∈ VIEW_STATES) : legalView s = true := by
  simp [legalView, h, hv]

theorem legalView_setViewState (s : STWState) (w : String)
    (h : legalView s = true) : legalView (setViewState s w) = true := by
  by_cases hw : w ∈ VIEW_STATES
  · exact legalView_of_viewState (setViewState_viewState_valid s hw) hw
  · rw [setViewState_invalid s hw]
    exact h

theorem legalView_handleAnswered (s : STWState) (d : List String) :
    legalView (handleAnswered s d) = true :=
  legalView_of_viewState (handleAnswered_viewState s d) mem_results

theorem legalView_showSolutions (s : STWState) :
    legalView (showSolutions s) = true :=
  legalView_of_viewState (showSolutions_viewState s) mem_solutions

theorem resetTask_viewState (s : STWState) :
    (resetTask s).viewState = some "task" := by
  simp only [resetTask]
  exact setViewState_viewState_valid _ mem_task

theorem legalView_resetTask (s : STWState) :
    legalView (resetTask s) = true :=
  legalView_of_viewState (resetTask_viewState s) mem_task

theorem legalView_recreateState (s : STWState) (h : legalView s = true) :
    legalView (recreateState s) = true := by
  unfold recreateState
  split_ifs <;> first
    | exact legalView_showSolutions _
    | exact legalView_handleAnswered _ _
    | exact h

theorem legalView_update_mime (s : STWState) (mt : Option String) (b : Bool) :
    legalView { s with mediaMIMEType := mt, captureRequested := b } = legalView s := rfl

theorem legalView_registerDomElements (plat : Platform) (s : STWState)
    (h : legalView s = true) : legalView (registerDomElements plat s) = true := by
  unfold registerDomElements
  by_cases h1 : plat.annyang = true
  · cases hli : s.previousState.lastInterpretations with
    | none =>
      simp [h1, hli, legalView_update_mime]
      exact h
    | some l =>
      simp only [h1, hli]
      split_ifs <;> first
        | exact h
        | exact legalView_recreateState _ h
  · simp [h1]
    exact h

theorem registerDomElements_mediaMIMEType (p : Platform) (s : STWState)
    (hp : p.annyang = true) :
    (registerDomElements p s).mediaMIMEType = getRecordingMIMEType p := by
  unfold registerDomElements
  cases hli : s.previousState.lastInterpretations with
  | none => simp [hp, hli]
  | some l =>
    simp [hp, hli]
    split_ifs <;> simp [recreateState_mediaMIMEType]

theorem registerDomElements_captureRequested (p : Platform) (s : STWState)
    (hp : p.annyang = true) :
    (registerDomElements p s).captureRequested = (getRecordingMIMEType p).isSome := by
  unfold registerDomElements
  cases hli : s.previousState.lastInterpretations with
  | none => simp [hp, hli]
  | some l =>
    simp [hp, hli]
    split_ifs <;> simp [recreateState_captureRequested]

/-- C2 counterexample: in a fresh session, whose persisted previous view
state is absent, the first outcome event moves `task` to `results` and
publishes one Interaction Outcome Record, but replaying the identical event
while already in `results` publishes a second record, contradicting the
claim that no second record is published. -/
theorem replay_publishes_second_record :
    (construct parisParams none).viewState = some "task" ∧
    (handleAnswered (construct parisParams none) ["london"]).viewState
      = some "results" ∧
    (handleAnswered (construct parisParams none) ["london"]).xapiCount = 1 ∧
    (handleAnswered (handleAnswered (construct parisParams none) ["london"])
      ["london"]).xapiCount = 2 := by
  decide

/-- C2 amended: an outcome event always moves the session to `results`; the
record-publish guard tests only the persisted previous view state, which the
event never changes, so a session whose persisted previous view state is
`task` or absent publishes one record per delivery, replays included, while
a session restored from a `results` or `solutions` snapshot publishes none. -/
theorem xapi_guard_uses_persisted_state (s : STWState) (d e : List String)
    (_hv : s.viewState = some "task") :
    (handleAnswered s d).viewState = some "results" ∧
    (handleAnswered s d).xapiCount =
      (if xapiAnsweredGuard s.previousState then s.xapiCount + 1 else s.xapiCount) ∧
    (handleAnswered (handleAnswered s d) e).xapiCount =
      (if xapiAnsweredGuard s.previousState then (handleAnswered s d).xapiCount + 1
       else (handleAnswered s d).xapiCount) := by
  refine ⟨handleAnswered_viewState s d, handleAnswered_xapiCount s d, ?_⟩
  rw [handleAnswered_xapiCount (handleAnswered s d) e, handleAnswered_previousState]

/-- Witness for the amended C2 at a fresh session and the utterance list
`[london]`. -/
theorem xapi_guard_uses_persisted_state_witness :
    (construct parisParams none).viewState = some "task" ∧
    ((handleAnswered (construct parisParams none) ["london"]).viewState
        = some "results" ∧
     (handleAnswered (construct parisParams none) ["london"]).xapiCount =
       (if xapiAnsweredGuard (construct parisParams none).previousState then
          (construct parisParams none).xapiCount + 1
        else (construct parisParams none).xapiCount) ∧
     (handleAnswered (handleAnswered (construct parisParams none) ["london"])
        ["london"]).xapiCount =
       (if xapiAnsweredGuard (construct parisParams none).previousState then
          (handleAnswered (construct parisParams none) ["london"]).xapiCount + 1
        else (handleAnswered (construct parisParams none) ["london"]).xapiCount)) :=
  ⟨by decide, xapi_guard_uses_persisted_state (construct parisParams none)
    ["london"] ["london"] (by decide)⟩

/-- C5: a view-state name outside the three-state set is ignored silently:
`setViewState` returns the state unchanged, and as a consequence the stored
view state is one of the three legal names after construction and is
preserved by every operation. -/
theorem invalid_view_state_ignored (s : STWState) (v w : String) (d : List String)
    (p : Params) (e : Option PrevState) (plat : Platform)
    (hv : v ∉ VIEW_STATES) :
    setViewState s v = s ∧
    legalView (construct p e) = true ∧
    (legalView s = true →
      legalView (setViewState s w) = true ∧
      legalView (handleAnswered s d) = true ∧
      legalView (resetTask s) = true ∧
      legalView (showSolutions s) = true ∧
      legalView (registerDomElements plat s) = true) :=
  ⟨setViewState_invalid s hv,
   legalView_of_viewState (construct_viewState_task p e) mem_task,
   fun h => ⟨legalView_setViewState s w h, legalView_handleAnswered s d,
     legalView_resetTask s, legalView_showSolutions s,
     legalView_registerDomElements plat s h⟩⟩

/-- Witness for C5 at the unknown name `bogus` on a fresh session. -/
theorem invalid_view_state_ignored_witness :
    "bogus" ∉ VIEW_STATES ∧
    (setViewState (construct parisParams none) "bogus" = construct parisParams none ∧
     legalView (construct parisParams none) = true ∧
     (legalView (construct parisParams none) = true →
       legalView (setViewState (construct parisParams none) "results") = true ∧
       legalView (handleAnswered (construct parisParams none) ["london"]) = true ∧
       legalView (resetTask (construct parisParams none)) = true ∧
       legalView (showSolutions (construct parisParams none)) = true ∧
       legalView (registerDomElements chromePlatform
         (construct parisParams none)) = true)) :=
  ⟨by decide, invalid_view_state_ignored (construct parisParams none) "bogus"
    "results" ["london"] parisParams none chromePlatform (by decide)⟩

/-- Witness for C6 at accepted answers `[paris]` and snapshot
interpretations `[paris]`. -/
theorem restore_solutions_no_republish_witness :
    (chromePlatform.annyang = true ∧ (["paris"] : List String) ≠ []) ∧
    ((restoredState parisParams chromePlatform ["paris"]).viewState
        = some "solutions" ∧
     (restoredState parisParams chromePlatform ["paris"]).xapiCount = 0 ∧
     (restoredState parisParams chromePlatform ["paris"]).hasAnswered = true ∧
     (restoredState parisParams chromePlatform ["paris"]).lastInterpretations
        = some ["paris"] ∧
     (restoredState parisParams chromePlatform ["paris"]).score =
       (match (["paris"] : List String).head? with
        | some r =>
          if evaluateAnswer (parisParams.acceptedAnswers.map decode) r then 1 else 0
        | none => 0)) :=
  ⟨⟨by decide, by decide⟩, restore_solutions_no_republish parisParams
    chromePlatform ["paris"] (by decide) (by decide)⟩

/-- C7: encoding negotiation is the deterministic capability function of
the claim (no recorder API: none; unqueryable codec support: audio/mp4;
otherwise audio/webm, else audio/mp4, else none), it is evaluated once at
registration into `mediaMIMEType`, and capture is requested exactly when an
encoding was negotiated. -/
theorem mime_negotiation_policy (p : Platform) (s : STWState)
    (hp : p.annyang = true) :
    getRecordingMIMEType p =
      (if ¬ p.hasMediaRecorder then none
       else if ¬ p.hasIsTypeSupported then some "audio/mp4"
       else if p.supportsWebm then some "audio/webm"
       else if p.supportsMp4 then some "audio/mp4"
       else none) ∧
    (registerDomElements p s).mediaMIMEType = getRecordingMIMEType p ∧
    (registerDomElements p s).captureRequested = (getRecordingMIMEType p).isSome :=
  ⟨rfl, registerDomElements_mediaMIMEType p s hp,
    registerDomElements_captureRequested p s hp⟩

/-- Witness for C7 on the concrete webm-capable platform. -/
theorem mime_negotiation_policy_witness :
    chromePlatform.annyang = true ∧
    (getRecordingMIMEType chromePlatform =
      (if ¬ chromePlatform.hasMediaRecorder then none
       else if ¬ chromePlatform.hasIsTypeSupported then some "audio/mp4"
       else if chromePlatform.supportsWebm then some "audio/webm"
       else if chromePlatform.supportsMp4 then some "audio/mp4"
       else none) ∧
     (registerDomElements chromePlatform (construct parisParams none)).mediaMIMEType =
       getRecordingMIMEType chromePlatform ∧
     (registerDomElements chromePlatform
        (construct parisParams none)).captureRequested =
       (getRecordingMIMEType chromePlatform).isSome) :=
  ⟨by decide, mime_negotiation_policy chromePlatform (construct parisParams none)
    (by decide)⟩

/-- C8: with no media recorder, the current `handleAnswered` still marks
the question answered, sets feedback and computes the score; the older copy
of the class in `src/unnamed/part_000` instead fails with a TypeError on the
same input, because it dereferences the null recorder without a guard. -/
theorem capture_absent_still_scores (s : STWState) (d : List String)
    (h : s.mediaRecorder = none) :
    (handleAnswered s d).hasAnswered = true ∧
    (handleAnswered s d).feedback.isSome = true ∧
    (handleAnswered s d).score =
      (match d.head? with
       | some r => if evaluateAnswer s.acceptedAnswers r then 1 else 0
       | none => 0) ∧
    handleAnsweredPart000 s d = Except.error mediaRecorderNullError := by
  refine ⟨handleAnswered_hasAnswered s d, handleAnswered_feedback_isSome s d,
    handleAnswered_score s d, ?_⟩
  simp [handleAnsweredPart000, h]

/-- Witness for C8 at a fresh session, whose media recorder is absent. -/
theorem capture_absent_still_scores_witness :
    (construct parisParams none).mediaRecorder = none ∧
    ((handleAnswered (construct parisParams none) ["london"]).hasAnswered = true ∧
     (handleAnswered (construct parisParams none) ["london"]).feedback.isSome
        = true ∧
     (handleAnswered (construct parisParams none) ["london"]).score =
       (match (["london"] : List String).head? with
        | some r =>
          if evaluateAnswer (construct parisParams none).acceptedAnswers r then 1
          else 0
        | none => 0) ∧
     handleAnsweredPart000 (construct parisParams none) ["london"] =
       Except.error mediaRecorderNullError) :=
  ⟨by decide, capture_absent_still_scores (construct parisParams none) ["london"]
    (by decide)⟩
